import Mathlib

/-!
Shallow embedding of the `powerstat` repository: `src/power_status.py`
(control listener and monitor loop) and `src/notifications.py`
(`NotificationManager`).  Python floats that only ever hold multiples of
0.5 are modelled as rationals, keystrokes as the lowercased characters the
listener compares against, and external effects (speech playback, toast
backends, the filesystem) as explicit inputs and outputs.
-/

/-- Shared control dictionary created in `main` (power_status.py line 123).
The field `repeatOn` models the `repeat` key of the Python dict (`repeat`
is a Lean keyword and cannot be used as an identifier). -/
structure ControlState where
  interval : ℚ
  repeatOn : Bool
  repeat_duration : ℚ
  say_current : Bool
  announce_on_repeat_enable : Bool
  repeat_interval : ℚ
  show_timer : Bool
  show_system_stats : Bool
deriving DecidableEq

/-- The dict literal of power_status.py line 123.  The interval comes
straight from `args.interval` (argparse, line 121), which accepts any float
and applies no bounds. -/
def initial_control_state (interval_arg : ℚ) : ControlState :=
  { interval := interval_arg,
    repeatOn := false,
    repeat_duration := 0,
    say_current := false,
    announce_on_repeat_enable := false,
    repeat_interval := 5,
    show_timer := false,
    show_system_stats := true }

/-- Keys that slow polling (line 28): `<` or `,`. -/
def isSlowerKey (c : Char) : Bool := c == '<' || c == ','

/-- Keys that speed polling (line 31): `>` or `.`. -/
def isFasterKey (c : Char) : Bool := c == '>' || c == '.'

/-- ESC or Q set the shared stop event and end the listener (lines 22-25);
they mutate no control state. -/
def key_sets_stop (k : Char) : Bool := k == '\x1b' || k == 'q'

/-- One non-quit keystroke handled by `control_listener`
(power_status.py lines 26-46), acting on the shared control state.  Keys
arrive already lowercased (`key.decode().lower()`, line 21).  ESC/Q only
set the stop event and `h` only prints, so they fall through to the
unchanged-state branch here, as do unrecognized keys.  The `r` branch is
`repeat = not repeat; if repeat: announce_on_repeat_enable = True`
(lines 34-38), written out by cases on the old value. -/
def apply_key (k : Char) (s : ControlState) : ControlState :=
  if isSlowerKey k then { s with interval := min 60 (s.interval + 1/2) }
  else if isFasterKey k then { s with interval := max (1/2) (s.interval - 1/2) }
  else if k == 'r' then
    if s.repeatOn then { s with repeatOn := false }
    else { s with repeatOn := true, announce_on_repeat_enable := true }
  else if k == 'c' then { s with say_current := true }
  else if k == 's' then { s with show_system_stats := !s.show_system_stats }
  else if k == 't' then { s with show_timer := !s.show_timer }
  else s

/-- A sequence of keystrokes processed in order by the listener. -/
def apply_keys (ks : List Char) (s : ControlState) : ControlState :=
  ks.foldl (fun acc k => apply_key k acc) s

/-- Net unclamped interval change of a key sequence: +0.5 per slower key
and -0.5 per faster key. -/
def keyDelta (ks : List Char) : ℚ :=
  (1/2) * ((ks.filter isSlowerKey).length : ℚ)
    - (1/2) * ((ks.filter isFasterKey).length : ℚ)

/-- Clamping of `x` into `[lo, hi]`. -/
def clamp (x lo hi : ℚ) : ℚ := max lo (min hi x)

/-- One call made to `announce` (power_status.py line 48) by the monitor
loop, tagged with the call site; `text` recovers the exact string passed.
Every such call prints the text to the console and, when `use_voice`,
speaks it. -/
inductive Announcement where
  | transition (s : String)
  | sayCurrent (s : String)
  | repeatEnabled (s : String)
  | repeatPeriodic (s : String)
deriving DecidableEq

/-- The string each call site passes to `announce`
(power_status.py lines 159, 167, 173, 179). -/
def Announcement.text : Announcement → String
  | transition s => "Power state changed: " ++ s
  | sayCurrent s => "Current power state: " ++ s
  | repeatEnabled s => "Repeat mode enabled. Current power state: " ++ s
  | repeatPeriodic s => "Current power state: " ++ s

/-- Whether an announcement came from the say-current branch
(power_status.py lines 163-167). -/
def Announcement.isSayCurrent : Announcement → Bool
  | sayCurrent _ => true
  | _ => false

/-- Whether an announcement is a power-state transition announcement
(power_status.py lines 157-161). -/
def Announcement.isTransition : Announcement → Bool
  | transition _ => true
  | _ => false

/-- Loop-local state of `main` threaded through monitor cycles:
`last_status` (line 138), `current_state_start_time` (line 137),
`last_repeat_time` (line 150) and the shared control dict. -/
structure LoopState where
  last_status : Option String
  current_state_start_time : ℚ
  last_repeat_time : ℚ
  control : ControlState
deriving DecidableEq

/-- Power state change block (power_status.py lines 156-161): on a truthy
reading that differs from `last_status`, announce only when `voice_ready`,
then update `last_status` and reset the state timer unconditionally. -/
def step_transition (voice_ready : Bool) (t : ℚ) (status : Option String)
    (st : LoopState) : LoopState × List Announcement :=
  match status with
  | some s =>
      if st.last_status ≠ some s then
        ({ st with last_status := some s, current_state_start_time := t },
          if voice_ready then [.transition s] else [])
      else (st, [])
  | none => (st, [])

/-- Manual current status block (lines 163-167): the one-shot flag is
cleared first; the announcement then requires a truthy reading and
`voice_ready`. -/
def step_say_current (voice_ready : Bool) (status : Option String)
    (st : LoopState) : LoopState × List Announcement :=
  if st.control.say_current then
    ({ st with control := { st.control with say_current := false } },
      match status, voice_ready with
      | some s, true => [.sayCurrent s]
      | _, _ => [])
  else (st, [])

/-- Repeat-enable announcement block (lines 169-174): the one-shot flag is
cleared first; on a truthy reading with voice the loop announces and resets
the repeat timer. -/
def step_repeat_enable (voice_ready : Bool) (t : ℚ) (status : Option String)
    (st : LoopState) : LoopState × List Announcement :=
  if st.control.announce_on_repeat_enable then
    let st1 : LoopState :=
      { st with control := { st.control with announce_on_repeat_enable := false } }
    match status, voice_ready with
    | some s, true => ({ st1 with last_repeat_time := t }, [.repeatEnabled s])
    | _, _ => (st1, [])
  else (st, [])

/-- Repeat cadence block (lines 176-180): with repeat on, a truthy reading,
voice, and the repeat interval elapsed, announce and reset the timer. -/
def step_repeat (voice_ready : Bool) (t : ℚ) (status : Option String)
    (st : LoopState) : LoopState × List Announcement :=
  match status, voice_ready with
  | some s, true =>
      if st.control.repeatOn ∧ t - st.last_repeat_time ≥ st.control.repeat_interval then
        ({ st with last_repeat_time := t }, [.repeatPeriodic s])
      else (st, [])
  | _, _ => (st, [])

/-- One iteration of the body of main's monitoring loop
(power_status.py lines 152-183), given the current time, the power reading
of this cycle (`get_power_status()`, truthy iff `some`), and whether voice
initialization succeeded.  Returns the updated loop state and the announce
calls made, in order.  Status-line rendering and the trailing sleep make no
announcements and mutate no state modelled here. -/
def monitor_cycle (voice_ready : Bool) (t : ℚ) (status : Option String)
    (st : LoopState) : LoopState × List Announcement :=
  let r1 := step_transition voice_ready t status st
  let r2 := step_say_current voice_ready status r1.1
  let r3 := step_repeat_enable voice_ready t status r2.1
  let r4 := step_repeat voice_ready t status r3.1
  (r4.1, r1.2 ++ r2.2 ++ r3.2 ++ r4.2)

/-- Several consecutive monitor cycles, fed one timed power reading each. -/
def run_cycles (voice_ready : Bool) :
    List (ℚ × Option String) → LoopState → LoopState × List Announcement
  | [], st => (st, [])
  | (t, status) :: rest, st =>
      let r := monitor_cycle voice_ready t status st
      let rr := run_cycles voice_ready rest r.1
      (rr.1, r.2 ++ rr.2)

/-- Loop state right after main's initialization (lines 136-150): baseline
reading in `last_status`, both timers at the start time, repeat timer at 0,
control dict fresh from the CLI interval. -/
def baseline_state (interval : ℚ) (status0 : Option String) (t0 : ℚ) : LoopState :=
  { last_status := status0,
    current_state_start_time := t0,
    last_repeat_time := 0,
    control := initial_control_state interval }

/-- Per-channel configuration as read by the toast channel
(notifications.py lines 32 and 60): `enabled` defaults to false when the
key is absent, `duration` to 10. -/
structure ChannelConfig where
  enabled : Option Bool
  duration : Option Nat
deriving DecidableEq

/-- The `notifications` section of the config JSON
(notifications.py lines 112-127): an optional global `enabled` key, named
channel configs, and per-event-type flags. -/
structure NotificationsSection where
  enabled : Option Bool
  channels : List (String × ChannelConfig)
  events : List (String × Bool)
deriving DecidableEq

/-- Top level of the parsed config JSON; the `notifications` key may be
absent (`self.config.get('notifications', {})`). -/
structure AppConfig where
  notifications : Option NotificationsSection
deriving DecidableEq

/-- `self.config.get('notifications', {}).get('enabled', True)`
(notifications.py line 162). -/
def AppConfig.notifications_enabled (c : AppConfig) : Bool :=
  match c.notifications with
  | none => true
  | some s => s.enabled.getD true

/-- `self.config.get('notifications', {}).get('events', {})`
(notifications.py line 166). -/
def AppConfig.events_config (c : AppConfig) : List (String × Bool) :=
  match c.notifications with
  | none => []
  | some s => s.events

/-- `self.config.get('notifications', {}).get('channels', {})`
(notifications.py line 151). -/
def AppConfig.channels_config (c : AppConfig) : List (String × ChannelConfig) :=
  match c.notifications with
  | none => []
  | some s => s.channels

/-- A constructed channel object held in `self.channels`: its name, its
effective enabled flag (`is_enabled`, line 39), and whether a call to its
`send` method reports success — the send outcome abstracts the external
toast backends; a raised exception and a returned `False` both leave the
channel out of the successful list (lines 172-178). -/
structure Channel where
  name : String
  enabled : Bool
  sendOk : Bool
deriving DecidableEq

/-- The manager: its parsed config and its initialized channel objects. -/
structure NotificationManager where
  config : AppConfig
  channels : List Channel
deriving DecidableEq

/-- `NotificationManager.send_notification` (notifications.py
lines 157-180): return `[]` if global notifications are disabled; return
`[]` if the event type is absent or false in the events map; otherwise
collect the names of enabled channels whose send succeeded.  `title` and
`message` are passed through to the channel sends, whose outcomes the
`sendOk` fields abstract. -/
def NotificationManager.send_notification (m : NotificationManager)
    (event_type title message : String) : List String :=
  if !m.config.notifications_enabled then []
  else if !((m.config.events_config.lookup event_type).getD false) then []
  else ((m.channels.filter (fun c => c.enabled && c.sendOk)).map Channel.name)

/-- `NotificationManager.test_channel` (notifications.py lines 182-197):
fail if the named channel is missing or disabled, otherwise return the
outcome of the channel's `send`.  The global notifications flag is never
consulted. -/
def NotificationManager.test_channel (m : NotificationManager)
    (channel_name : String) : Bool :=
  match m.channels.find? (fun c => c.name == channel_name) with
  | none => false
  | some c => if !c.enabled then false else c.sendOk

/-- The `default_config` literal of `load_config`
(notifications.py lines 112-128). -/
def default_config : AppConfig :=
  { notifications := some
      { enabled := some true,
        channels := [("toast", { enabled := some true, duration := some 10 })],
        events :=
          [("power_change", true),
           ("repeat_mode_toggle", false),
           ("service_start", true),
           ("service_stop", true)] } }

/-- State of the config file at the configured path when `load_config`
runs: missing, present but unparseable, or present and parsed. -/
inductive ConfigFile where
  | missing
  | malformed
  | valid (c : AppConfig)
deriving DecidableEq

/-- `NotificationManager.load_config` (notifications.py lines 110-139) over
the file state: the first component is the in-memory config adopted, the
second the content written back to disk by `save_config` (line 139), `none`
when nothing is written.  Only a missing file triggers the write-back; a
malformed file falls back to the defaults in memory without overwriting. -/
def load_config : ConfigFile → AppConfig × Option AppConfig
  | .missing => (default_config, some default_config)
  | .malformed => (default_config, none)
  | .valid c => (c, none)

/-- Sleep calls performed by one iteration of main's while loop: line 183
is a single `time.sleep(control_state['interval'])`; there is no other
sleep and no stop-event check inside the loop body. -/
def iteration_sleep_calls (interval : ℚ) : List ℚ := [interval]

/-- Absolute time of the k-th evaluation of the loop condition
`while not stop_event.is_set()` (line 152), counting announcement and
rendering time as zero: each iteration advances time by exactly its sleep
calls. -/
def stop_check_time (interval : ℚ) : ℕ → ℚ
  | 0 => 0
  | k + 1 => stop_check_time interval k + (iteration_sleep_calls interval).sum

/-- Exit time of the loop when the stop event is set at time `stopAt ≥ 0`:
the stop event is read only at the loop condition, so the loop runs until
the first check time not before `stopAt` — the ceiling of
`stopAt / interval` full intervals. -/
def loop_exit_time (interval stopAt : ℚ) : ℚ :=
  (⌈stopAt / interval⌉ : ℚ) * interval

/-- Fold step of `apply_keys` on a cons. -/
theorem apply_keys_cons (k : Char) (ks : List Char) (s : ControlState) :
    apply_keys (k :: ks) s = apply_keys ks (apply_key k s) := rfl

/-- A single keystroke keeps an in-bounds interval in bounds: the slower
branch clamps above at 60 and only adds, the faster branch clamps below at
0.5 and only subtracts, and no other branch touches the interval. -/
theorem apply_key_interval_bounds (k : Char) (s : ControlState)
    (h1 : 1/2 ≤ s.interval) (h2 : s.interval ≤ 60) :
    1/2 ≤ (apply_key k s).interval ∧ (apply_key k s).interval ≤ 60 := by
  unfold apply_key
  by_cases hs : isSlowerKey k = true
  · rw [if_pos hs]
    exact ⟨le_min (by norm_num) (by linarith), min_le_left _ _⟩
  · rw [if_neg hs]
    by_cases hf : isFasterKey k = true
    · rw [if_pos hf]
      exact ⟨le_max_left _ _, max_le (by norm_num) (by linarith)⟩
    · rw [if_neg hf]
      by_cases hr : (k == 'r') = true
      · rw [if_pos hr]
        by_cases hrep : s.repeatOn = true
        · rw [if_pos hrep]; exact ⟨h1, h2⟩
        · rw [if_neg hrep]; exact ⟨h1, h2⟩
      · rw [if_neg hr]
        by_cases hc : (k == 'c') = true
        · rw [if_pos hc]; exact ⟨h1, h2⟩
        · rw [if_neg hc]
          by_cases hss : (k == 's') = true
          · rw [if_pos hss]; exact ⟨h1, h2⟩
          · rw [if_neg hss]
            by_cases ht : (k == 't') = true
            · rw [if_pos ht]; exact ⟨h1, h2⟩
            · rw [if_neg ht]; exact ⟨h1, h2⟩

/-- Any keystroke sequence keeps an in-bounds interval in bounds. -/
theorem apply_keys_interval_bounds (ks : List Char) :
    ∀ s : ControlState, 1/2 ≤ s.interval → s.interval ≤ 60 →
      1/2 ≤ (apply_keys ks s).interval ∧ (apply_keys ks s).interval ≤ 60 := by
  induction ks with
  | nil => intro s h1 h2; exact ⟨h1, h2⟩
  | cons k ks ih =>
      intro s h1 h2
      have hb := apply_key_interval_bounds k s h1 h2
      rw [apply_keys_cons]
      exact ih (apply_key k s) hb.1 hb.2

/-- The transition block never touches the control dict. -/
theorem step_transition_control_interval (v : Bool) (t : ℚ)
    (status : Option String) (st : LoopState) :
    (step_transition v t status st).1.control.interval = st.control.interval := by
  unfold step_transition
  rcases status with _ | s
  · rfl
  · dsimp only
    split <;> rfl

/-- The say-current block only clears its one-shot flag. -/
theorem step_say_current_control_interval (v : Bool)
    (status : Option String) (st : LoopState) :
    (step_say_current v status st).1.control.interval = st.control.interval := by
  unfold step_say_current
  split <;> rfl

/-- The repeat-enable block only clears its one-shot flag and may reset the
repeat timer. -/
theorem step_repeat_enable_control_interval (v : Bool) (t : ℚ)
    (status : Option String) (st : LoopState) :
    (step_repeat_enable v t status st).1.control.interval = st.control.interval := by
  unfold step_repeat_enable
  split
  · rcases status with _ | s <;> cases v <;> rfl
  · rfl

/-- The repeat-cadence block never touches the control dict. -/
theorem step_repeat_control_interval (v : Bool) (t : ℚ)
    (status : Option String) (st : LoopState) :
    (step_repeat v t status st).1.control.interval = st.control.interval := by
  unfold step_repeat
  rcases status with _ | s <;> cases v <;> try rfl
  dsimp only
  split <;> rfl

/-- A monitor cycle never writes the polling interval: only the key
listener does. -/
theorem monitor_cycle_control_interval (v : Bool) (t : ℚ)
    (status : Option String) (st : LoopState) :
    (monitor_cycle v t status st).1.control.interval = st.control.interval := by
  unfold monitor_cycle
  dsimp only
  rw [step_repeat_control_interval, step_repeat_enable_control_interval,
    step_say_current_control_interval, step_transition_control_interval]

/-- C1 (corrected).  The claim as stated is false: `main` stores the CLI
`--interval` value without clamping, so the startup state for
`--interval 100` holds an interval outside `[0.5, 60]`. -/
theorem cli_interval_unclamped_at_startup :
    (initial_control_state 100).interval = 100
    ∧ ¬((initial_control_state 100).interval ≤ 60) := by
  constructor
  · rfl
  · norm_num [initial_control_state]

/-- C1 (amended).  Once the interval starts inside the clamp bounds
`[0.5, 60]`, every sequence of key presses keeps it inside, and a monitor
cycle never writes the interval at all; the bounds are only not established
for an out-of-range CLI `--interval` value, which `main` stores unclamped. -/
theorem interval_clamped_invariant (v : ℚ) (ks : List Char)
    (vr : Bool) (t : ℚ) (status : Option String) (st : LoopState)
    (h1 : 1/2 ≤ v) (h2 : v ≤ 60) :
    (1/2 ≤ (apply_keys ks (initial_control_state v)).interval
      ∧ (apply_keys ks (initial_control_state v)).interval ≤ 60)
    ∧ (monitor_cycle vr t status st).1.control.interval = st.control.interval :=
  ⟨apply_keys_interval_bounds ks (initial_control_state v) h1 h2,
    monitor_cycle_control_interval vr t status st⟩

/-- Concrete instance of `interval_clamped_invariant`: start value 2,
presses slower, unrecognized, faster; one monitor cycle on the baseline
state. -/
theorem interval_clamped_invariant_witness :
    (1/2 ≤ (apply_keys ['<', 'x', '.'] (initial_control_state 2)).interval
      ∧ (apply_keys ['<', 'x', '.'] (initial_control_state 2)).interval ≤ 60)
    ∧ (monitor_cycle true 0 none (baseline_state 2 none 0)).1.control.interval
        = (baseline_state 2 none 0).control.interval :=
  interval_clamped_invariant 2 ['<', 'x', '.'] true 0 none (baseline_state 2 none 0)
    (by norm_num) (by norm_num)

/-- C5 (corrected).  The claim as stated is false: starting from the fresh
control state, two R presses return repeat to off but leave the one-shot
announce-repeat-enabled flag set, not unset. -/
theorem double_repeat_toggle_counterexample :
    (apply_keys ['r', 'r'] (initial_control_state 2)).repeatOn = false
    ∧ ¬((apply_keys ['r', 'r'] (initial_control_state 2)).announce_on_repeat_enable
          = false) := by
  decide

/-- C5 (amended).  Two R presses in succession restore `repeatOn` to its
original value, but always leave the one-shot announce-repeat-enabled flag
set: the listener sets it whenever a press turns repeat on and never clears
it — only the monitor loop consumes it. -/
theorem double_repeat_toggle_flag_stays (s : ControlState) :
    (apply_key 'r' (apply_key 'r' s)).repeatOn = s.repeatOn
    ∧ (apply_key 'r' (apply_key 'r' s)).announce_on_repeat_enable = true := by
  rcases s with ⟨i, r, rd, sc, ar, ri, sht, shs⟩
  cases r <;> exact ⟨rfl, rfl⟩

/-- C4 (confirmed).  `send_notification` returns the empty list whenever
the global notifications flag is false, and whenever the event type is
absent from or false in the configured events map, regardless of the
channels. -/
theorem send_notification_gates (m : NotificationManager) (e t msg : String) :
    (m.config.notifications_enabled = false → m.send_notification e t msg = [])
    ∧ ((m.config.events_config.lookup e = none
          ∨ m.config.events_config.lookup e = some false) →
        m.send_notification e t msg = []) := by
  constructor
  · intro h
    unfold NotificationManager.send_notification
    simp [h]
  · intro h
    unfold NotificationManager.send_notification
    have hev : (m.config.events_config.lookup e).getD false = false := by
      rcases h with h | h <;> rw [h] <;> rfl
    rw [hev]
    simp

/-- Concrete instance of `send_notification_gates`: a globally disabled
config with an enabled, succeeding toast channel still yields `[]`, and a
globally enabled config yields `[]` for an event type missing from the
events map. -/
theorem send_notification_gates_witness :
    NotificationManager.send_notification
        ⟨⟨some ⟨some false, [("toast", ⟨some true, some 10⟩)], [("power_change", true)]⟩⟩,
          [⟨"toast", true, true⟩]⟩ "power_change" "T" "M" = []
    ∧ NotificationManager.send_notification
        ⟨⟨some ⟨some true, [("toast", ⟨some true, some 10⟩)], [("power_change", true)]⟩⟩,
          [⟨"toast", true, true⟩]⟩ "service_start" "T" "M" = [] :=
  ⟨(send_notification_gates _ "power_change" "T" "M").1 rfl,
    (send_notification_gates _ "service_start" "T" "M").2 (Or.inl rfl)⟩

/-- C7 (confirmed).  On a missing config file, `load_config` adopts the
built-in defaults and writes them back to disk; the written configuration
has global notifications enabled, exactly the one channel `toast` enabled
with duration 10, and events `power_change`, `service_start`,
`service_stop` enabled and `repeat_mode_toggle` disabled. -/
theorem load_config_fresh_writes_defaults :
    (load_config ConfigFile.missing).1 = default_config
    ∧ (load_config ConfigFile.missing).2 = some default_config
    ∧ default_config.notifications_enabled = true
    ∧ default_config.channels_config
        = [("toast", { enabled := some true, duration := some 10 })]
    ∧ default_config.events_config.lookup "power_change" = some true
    ∧ default_config.events_config.lookup "repeat_mode_toggle" = some false
    ∧ default_config.events_config.lookup "service_start" = some true
    ∧ default_config.events_config.lookup "service_stop" = some true := by
  refine ⟨rfl, rfl, rfl, rfl, ?_, ?_, ?_, ?_⟩ <;> rfl

/-- C8 (confirmed).  With an AC baseline and readings
AC, AC, Battery, Battery, AC — one per cycle — the loop makes exactly two
transition announcements: to Battery and back to AC. -/
theorem transition_announcements_exactly_two :
    (run_cycles true
        [(1, some "AC Power"), (2, some "AC Power"), (3, some "Battery"),
          (4, some "Battery"), (5, some "AC Power")]
        (baseline_state 2 (some "AC Power") 0)).2
      = [Announcement.transition "Battery", Announcement.transition "AC Power"] := by
  rfl

/-- C9 (confirmed).  `test_channel` never consults the global
notifications flag: with the global flag false and the named channel
present and enabled, it still returns the channel's send outcome, while
`send_notification` on the same manager returns the empty list. -/
theorem test_channel_ignores_global_flag (m : NotificationManager) (c : Channel)
    (name e t msg : String)
    (hglobal : m.config.notifications_enabled = false)
    (hfind : m.channels.find? (fun ch => ch.name == name) = some c)
    (hen : c.enabled = true) :
    m.test_channel name = c.sendOk ∧ m.send_notification e t msg = [] := by
  constructor
  · unfold NotificationManager.test_channel
    rw [hfind]
    simp [hen]
  · unfold NotificationManager.send_notification
    simp [hglobal]

/-- Concrete instance of `test_channel_ignores_global_flag`: globally
disabled config, enabled toast channel whose send succeeds. -/
theorem test_channel_ignores_global_flag_witness :
    NotificationManager.test_channel
        ⟨⟨some ⟨some false, [("toast", ⟨some true, some 10⟩)], [("power_change", true)]⟩⟩,
          [⟨"toast", true, true⟩]⟩ "toast" = true
    ∧ NotificationManager.send_notification
        ⟨⟨some ⟨some false, [("toast", ⟨some true, some 10⟩)], [("power_change", true)]⟩⟩,
          [⟨"toast", true, true⟩]⟩ "power_change" "T" "M" = [] :=
  test_channel_ignores_global_flag _ ⟨"toast", true, true⟩ "toast" "power_change" "T" "M"
    rfl rfl rfl

/-- A slower key is never also a faster key. -/
theorem slower_not_faster (c : Char) (h : isSlowerKey c = true) :
    isFasterKey c = false := by
  simp only [isSlowerKey, Bool.or_eq_true, beq_iff_eq] at h
  rcases h with h | h <;> subst h <;> rfl

/-- A faster key is never also a slower key. -/
theorem faster_not_slower (c : Char) (h : isFasterKey c = true) :
    isSlowerKey c = false := by
  simp only [isFasterKey, Bool.or_eq_true, beq_iff_eq] at h
  rcases h with h | h <;> subst h <;> rfl

/-- The raw delta of the empty key sequence. -/
theorem keyDelta_nil : keyDelta [] = 0 := by
  simp [keyDelta]

/-- The raw delta unfolds one key at a time. -/
theorem keyDelta_cons (c : Char) (ks : List Char) :
    keyDelta (c :: ks)
      = (if isSlowerKey c then (1:ℚ)/2 else if isFasterKey c then -(1:ℚ)/2 else 0)
        + keyDelta ks := by
  by_cases hs : isSlowerKey c = true
  · have hf := slower_not_faster c hs
    simp only [keyDelta, List.filter_cons, hs, hf, if_true, Bool.false_eq_true, if_false,
      List.length_cons]
    push_cast
    ring
  · by_cases hf : isFasterKey c = true
    · simp only [keyDelta, List.filter_cons, hs, hf, if_true, Bool.false_eq_true, if_false,
        List.length_cons]
      push_cast
      ring
    · simp only [keyDelta, List.filter_cons, hs, hf, Bool.false_eq_true, if_false]
      ring

/-- When no intermediate value would be clipped, the listener's fold adds
exactly the raw delta of the key sequence: each `min`/`max` clamp is then
the identity. -/
theorem apply_keys_interval_eq (ks : List Char) :
    ∀ s : ControlState,
      (∀ c ∈ ks, isSlowerKey c = true ∨ isFasterKey c = true) →
      (∀ n, n ≤ ks.length →
        1/2 ≤ s.interval + keyDelta (ks.take n)
          ∧ s.interval + keyDelta (ks.take n) ≤ 60) →
      (apply_keys ks s).interval = s.interval + keyDelta ks := by
  induction ks with
  | nil =>
      intro s _ _
      simp [apply_keys, keyDelta_nil]
  | cons c ks ih =>
      intro s hkeys hpre
      have hc := hkeys c (List.mem_cons_self _ _)
      have h1 := hpre 1 (Nat.succ_le_succ (Nat.zero_le _))
      rw [List.take_succ_cons, List.take_zero] at h1
      rcases hc with hs | hf
      · have hnf := slower_not_faster c hs
        have hd : keyDelta [c] = 1/2 := by
          simp [keyDelta, List.filter_cons, hs, hnf]
        rw [hd] at h1
        have hstep : (apply_key c s).interval = s.interval + 1/2 := by
          unfold apply_key
          rw [if_pos hs]
          exact min_eq_right (by linarith [h1.2])
        rw [apply_keys_cons]
        have hpre2 : ∀ n, n ≤ ks.length →
            1/2 ≤ (apply_key c s).interval + keyDelta (ks.take n)
              ∧ (apply_key c s).interval + keyDelta (ks.take n) ≤ 60 := by
          intro n hn
          have h2 := hpre (n + 1) (Nat.succ_le_succ hn)
          rw [List.take_succ_cons, keyDelta_cons] at h2
          simp only [hs, if_true] at h2
          rw [hstep]
          constructor <;> linarith [h2.1, h2.2]
        rw [ih (apply_key c s) (fun d hd2 => hkeys d (List.mem_cons_of_mem _ hd2)) hpre2,
          hstep, keyDelta_cons]
        simp only [hs, if_true]
        ring
      · have hns := faster_not_slower c hf
        have hd : keyDelta [c] = -(1/2) := by
          simp [keyDelta, List.filter_cons, hf, hns]
        rw [hd] at h1
        have hstep : (apply_key c s).interval = s.interval - 1/2 := by
          unfold apply_key
          rw [if_neg (by simp [hns]), if_pos hf]
          exact max_eq_right (by linarith [h1.1])
        rw [apply_keys_cons]
        have hpre2 : ∀ n, n ≤ ks.length →
            1/2 ≤ (apply_key c s).interval + keyDelta (ks.take n)
              ∧ (apply_key c s).interval + keyDelta (ks.take n) ≤ 60 := by
          intro n hn
          have h2 := hpre (n + 1) (Nat.succ_le_succ hn)
          rw [List.take_succ_cons, keyDelta_cons] at h2
          simp only [hns, hf, Bool.false_eq_true, if_false, if_true] at h2
          rw [hstep]
          constructor <;> linarith [h2.1, h2.2]
        rw [ih (apply_key c s) (fun d hd2 => hkeys d (List.mem_cons_of_mem _ hd2)) hpre2,
          hstep, keyDelta_cons]
        simp only [hns, hf, Bool.false_eq_true, if_false, if_true]
        ring

/-- Clamping is the identity inside the bounds. -/
theorem clamp_eq_self (x lo hi : ℚ) (h1 : lo ≤ x) (h2 : x ≤ hi) :
    clamp x lo hi = x := by
  unfold clamp
  rw [min_eq_right h2, max_eq_right h1]

/-- The comma key is a slower key but not a faster key. -/
theorem isSlowerKey_comma : isSlowerKey ',' = true := rfl

/-- The period key is a faster key. -/
theorem isFasterKey_dot : isFasterKey '.' = true := rfl

/-- The period key is not a slower key. -/
theorem isSlowerKey_dot : isSlowerKey '.' = false := rfl

/-- The comma key is not a faster key. -/
theorem isFasterKey_comma : isFasterKey ',' = false := rfl

/-- A slower key takes the clamped-above increment branch of line 29. -/
theorem apply_key_slower (c : Char) (h : isSlowerKey c = true) (s : ControlState) :
    apply_key c s = { s with interval := min 60 (s.interval + 1/2) } := by
  unfold apply_key
  rw [if_pos h]

/-- A faster key takes the clamped-below decrement branch of line 32. -/
theorem apply_key_faster (c : Char) (h : isFasterKey c = true) (s : ControlState) :
    apply_key c s = { s with interval := max (1/2) (s.interval - 1/2) } := by
  unfold apply_key
  rw [if_neg (by simp [faster_not_slower c h]), if_pos h]

/-- C2 (corrected).  The claim as stated is false: from start value 60, one
slower press (clipped at 60) followed by one faster press leaves 59.5,
while the claimed formula gives clamp(60 + 0.5 - 0.5) = 60. -/
theorem interval_adjustment_formula_counterexample :
    (apply_keys [',', '.'] (initial_control_state 60)).interval = 119/2
    ∧ clamp (60 + (1/2) * ((([',', '.'] : List Char).filter isSlowerKey).length : ℚ)
        - (1/2) * ((([',', '.'] : List Char).filter isFasterKey).length : ℚ)) (1/2) 60
        = 60
    ∧ ((119:ℚ)/2 ≠ 60) := by
  refine ⟨?_, ?_, by norm_num⟩
  · show (apply_key '.' (apply_key ',' (initial_control_state 60))).interval = 119/2
    rw [apply_key_slower ',' isSlowerKey_comma, apply_key_faster '.' isFasterKey_dot]
    show max (1/2) (min 60 ((60:ℚ) + 1/2) - 1/2) = 119/2
    rw [min_eq_left (by norm_num), max_eq_right (by norm_num)]
    norm_num
  · have hx : (60 + (1/2) * ((([',', '.'] : List Char).filter isSlowerKey).length : ℚ)
        - (1/2) * ((([',', '.'] : List Char).filter isFasterKey).length : ℚ)) = 60 := by
      simp [List.filter_cons, isSlowerKey_comma, isSlowerKey_dot,
        isFasterKey_comma, isFasterKey_dot]
    rw [hx, clamp_eq_self 60 (1/2) 60 (by norm_num) (le_refl 60)]

/-- C2 (amended).  The formula
`clamp(v + 0.5·M − 0.5·N, 0.5, 60)` holds for an interleaving of slower and
faster presses exactly when no intermediate prefix value leaves `[0.5, 60]`
(the per-press clamps of lines 29 and 32 are then never engaged); an
interleaving that hits a bound mid-sequence can end elsewhere. -/
theorem interval_adjustment_formula (v : ℚ) (ks : List Char)
    (hkeys : ∀ c ∈ ks, isSlowerKey c = true ∨ isFasterKey c = true)
    (hpre : ∀ n, n ≤ ks.length →
      1/2 ≤ v + keyDelta (ks.take n) ∧ v + keyDelta (ks.take n) ≤ 60) :
    (apply_keys ks (initial_control_state v)).interval
      = clamp (v + (1/2) * ((ks.filter isSlowerKey).length : ℚ)
          - (1/2) * ((ks.filter isFasterKey).length : ℚ)) (1/2) 60 := by
  have heq := apply_keys_interval_eq ks (initial_control_state v) hkeys hpre
  have hlast := hpre ks.length (le_refl _)
  rw [List.take_length] at hlast
  rw [heq]
  have hdelta : (initial_control_state v).interval + keyDelta ks
      = v + (1/2) * ((ks.filter isSlowerKey).length : ℚ)
          - (1/2) * ((ks.filter isFasterKey).length : ℚ) := by
    unfold keyDelta initial_control_state
    ring
  rw [hdelta]
  have hx : v + (1/2) * ((ks.filter isSlowerKey).length : ℚ)
      - (1/2) * ((ks.filter isFasterKey).length : ℚ) = v + keyDelta ks := by
    unfold keyDelta
    ring
  rw [hx]
  exact (clamp_eq_self _ _ _ hlast.1 hlast.2).symm

/-- Concrete instance of `interval_adjustment_formula`: start value 2,
presses slower, slower, faster; no prefix leaves the bounds, and the result
equals the claimed clamp formula. -/
theorem interval_adjustment_formula_witness :
    (apply_keys [',', ',', '.'] (initial_control_state 2)).interval
      = clamp (2 + (1/2) * ((([',', ',', '.'] : List Char).filter isSlowerKey).length : ℚ)
          - (1/2) * ((([',', ',', '.'] : List Char).filter isFasterKey).length : ℚ))
          (1/2) 60 :=
  interval_adjustment_formula 2 [',', ',', '.']
    (by
      intro c hc
      fin_cases hc
      · exact Or.inl isSlowerKey_comma
      · exact Or.inl isSlowerKey_comma
      · exact Or.inr isFasterKey_dot)
    (by
      intro n hn
      have hn3 : n ≤ 3 := by simpa using hn
      clear hn
      interval_cases n <;>
        simp [List.take_succ_cons, List.take_zero, keyDelta_cons, keyDelta_nil,
          isSlowerKey_comma, isFasterKey_comma, isSlowerKey_dot, isFasterKey_dot] <;>
        norm_num)

/-- The transition block leaves the whole control dict untouched. -/
theorem step_transition_control (v : Bool) (t : ℚ) (status : Option String)
    (st : LoopState) :
    (step_transition v t status st).1.control = st.control := by
  unfold step_transition
  rcases status with _ | s
  · rfl
  · dsimp only
    split <;> rfl

/-- After the say-current block the one-shot say-current flag is always
clear: it is cleared when set, and it was already clear otherwise. -/
theorem step_say_current_clears (v : Bool) (status : Option String)
    (st : LoopState) :
    (step_say_current v status st).1.control.say_current = false := by
  unfold step_say_current
  by_cases h : st.control.say_current = true
  · rw [if_pos h]
  · rw [if_neg h]
    simp only [Bool.not_eq_true] at h
    exact h

/-- With the say-current flag clear, the say-current block emits nothing. -/
theorem step_say_current_no_output_of_flag_false (v : Bool)
    (status : Option String) (st : LoopState)
    (h : st.control.say_current = false) :
    (step_say_current v status st).2 = [] := by
  unfold step_say_current
  rw [if_neg (by simp [h])]

/-- The repeat-enable block does not touch the say-current flag. -/
theorem step_repeat_enable_say_current (v : Bool) (t : ℚ)
    (status : Option String) (st : LoopState) :
    (step_repeat_enable v t status st).1.control.say_current
      = st.control.say_current := by
  unfold step_repeat_enable
  split
  · rcases status with _ | s <;> cases v <;> rfl
  · rfl

/-- The repeat-cadence block does not touch the say-current flag. -/
theorem step_repeat_say_current (v : Bool) (t : ℚ) (status : Option String)
    (st : LoopState) :
    (step_repeat v t status st).1.control.say_current
      = st.control.say_current := by
  unfold step_repeat
  rcases status with _ | s <;> cases v <;> try rfl
  dsimp only
  split <;> rfl

/-- A monitor cycle always ends with the say-current flag clear. -/
theorem monitor_cycle_clears_say_current (v : Bool) (t : ℚ)
    (status : Option String) (st : LoopState) :
    (monitor_cycle v t status st).1.control.say_current = false := by
  unfold monitor_cycle
  dsimp only
  rw [step_repeat_say_current, step_repeat_enable_say_current, step_say_current_clears]

/-- A cycle that sees no power reading makes no announce call: every
announcement branch requires a truthy status. -/
theorem monitor_cycle_output_status_none (v : Bool) (t : ℚ) (st : LoopState) :
    (monitor_cycle v t none st).2 = [] := by
  unfold monitor_cycle step_transition step_say_current step_repeat_enable step_repeat
  dsimp only
  split_ifs <;> simp_all

/-- A cycle with the voice engine unavailable makes no announce call:
every announcement branch is guarded by `voice_ready`. -/
theorem monitor_cycle_output_no_voice (t : ℚ) (status : Option String)
    (st : LoopState) :
    (monitor_cycle false t status st).2 = [] := by
  rcases status with _ | s
  · exact monitor_cycle_output_status_none false t st
  · unfold monitor_cycle step_transition step_say_current step_repeat_enable step_repeat
    dsimp only
    split_ifs <;> simp_all

/-- The transition block never produces a say-current announcement. -/
theorem filter_say_current_step_transition (v : Bool) (t : ℚ)
    (status : Option String) (st : LoopState) :
    ((step_transition v t status st).2).filter Announcement.isSayCurrent = [] := by
  unfold step_transition
  rcases status with _ | s
  · rfl
  · dsimp only
    split
    · cases v <;> rfl
    · rfl

/-- The repeat-enable block never produces a say-current announcement. -/
theorem filter_say_current_step_repeat_enable (v : Bool) (t : ℚ)
    (status : Option String) (st : LoopState) :
    ((step_repeat_enable v t status st).2).filter Announcement.isSayCurrent = [] := by
  unfold step_repeat_enable
  split
  · rcases status with _ | s <;> cases v <;> rfl
  · rfl

/-- The repeat-cadence block never produces a say-current announcement. -/
theorem filter_say_current_step_repeat (v : Bool) (t : ℚ)
    (status : Option String) (st : LoopState) :
    ((step_repeat v t status st).2).filter Announcement.isSayCurrent = [] := by
  unfold step_repeat
  rcases status with _ | s <;> cases v <;> try rfl
  dsimp only
  split <;> rfl

/-- With the say-current flag clear at cycle start, no say-current
announcement is produced by the cycle. -/
theorem monitor_cycle_no_say_current_output (v : Bool) (t : ℚ)
    (status : Option String) (st : LoopState)
    (h : st.control.say_current = false) :
    ((monitor_cycle v t status st).2).filter Announcement.isSayCurrent = [] := by
  unfold monitor_cycle
  dsimp only
  rw [List.filter_append, List.filter_append, List.filter_append]
  rw [filter_say_current_step_transition, filter_say_current_step_repeat_enable,
    filter_say_current_step_repeat,
    step_say_current_no_output_of_flag_false _ _ _ (by rw [step_transition_control]; exact h)]
  rfl

/-- C10 (confirmed).  The say-current flag is cleared before the
announcement condition is checked: a pending request in a cycle with no
power reading, or with voice unavailable, produces no announce call at all,
leaves the flag clear, and any later cycle produces no say-current
announcement without a new request. -/
theorem say_current_consumed_silently (voice_ready v2 : Bool) (t t2 : ℚ)
    (status s2 : Option String) (st : LoopState)
    (hsay : st.control.say_current = true)
    (hbad : status = none ∨ voice_ready = false) :
    (monitor_cycle voice_ready t status st).2 = []
    ∧ (monitor_cycle voice_ready t status st).1.control.say_current = false
    ∧ ((monitor_cycle v2 t2 s2 (monitor_cycle voice_ready t status st).1).2).filter
        Announcement.isSayCurrent = [] := by
  refine ⟨?_, monitor_cycle_clears_say_current _ _ _ _, ?_⟩
  · rcases hbad with h | h
    · rw [h]
      exact monitor_cycle_output_status_none _ _ _
    · rw [h]
      exact monitor_cycle_output_no_voice _ _ _
  · exact monitor_cycle_no_say_current_output _ _ _ _
      (monitor_cycle_clears_say_current _ _ _ _)

/-- Concrete instance of `say_current_consumed_silently`: a pending
say-current request in a cycle whose power reading is absent, followed by a
normal cycle. -/
theorem say_current_consumed_silently_witness :
    (monitor_cycle true 1 none
        ⟨some "AC Power", 0, 0, ⟨2, false, 0, true, false, 5, false, true⟩⟩).2 = []
    ∧ (monitor_cycle true 1 none
        ⟨some "AC Power", 0, 0, ⟨2, false, 0, true, false, 5, false, true⟩⟩).1.control.say_current
        = false
    ∧ ((monitor_cycle true 2 (some "AC Power")
        (monitor_cycle true 1 none
          ⟨some "AC Power", 0, 0, ⟨2, false, 0, true, false, 5, false, true⟩⟩).1).2).filter
        Announcement.isSayCurrent = [] :=
  say_current_consumed_silently true true 1 2 none (some "AC Power")
    ⟨some "AC Power", 0, 0, ⟨2, false, 0, true, false, 5, false, true⟩⟩ rfl (Or.inl rfl)

/-- C3 (code bug).  With voice initialization failed, a cycle in which the
power state changes and the say-current, repeat-enable and repeat-cadence
announcements are all due makes no announce call at all — so no console
announcement text is printed, contradicting the promised console-only
degradation — while the loop state machine still advances (the transition
is still recorded). -/
theorem voice_unavailable_announcements_suppressed :
    (monitor_cycle false 10 (some "Battery")
        ⟨some "AC Power", 0, 0, ⟨2, true, 0, true, true, 5, false, true⟩⟩).2 = []
    ∧ (monitor_cycle false 10 (some "Battery")
        ⟨some "AC Power", 0, 0, ⟨2, true, 0, true, true, 5, false, true⟩⟩).1.last_status
        = some "Battery" := by
  exact ⟨rfl, rfl⟩

/-- Closed form for the check times: the k-th loop-condition check happens
after k full sleeps of one interval each. -/
theorem stop_check_time_eq (interval : ℚ) (k : ℕ) :
    stop_check_time interval k = (k : ℚ) * interval := by
  induction k with
  | zero => simp [stop_check_time]
  | succ k ih =>
      simp only [stop_check_time, iteration_sleep_calls, List.sum_cons, List.sum_nil, ih]
      push_cast
      ring

/-- C6 (amended).  A stop signal set at time `stopAt` during the sleep is
observed only at the next loop-condition check: the exit time is a whole
number of full intervals, is not before `stopAt`, and can lag `stopAt` by
up to one full polling interval — not one sub-interval tick, since the
sleep of line 183 is a single uninterruptible call. -/
theorem stop_mid_sleep_exit_latency (interval stopAt : ℚ)
    (hi : 0 < interval) (hs : 0 ≤ stopAt) :
    loop_exit_time interval stopAt
        = stop_check_time interval (⌈stopAt / interval⌉.toNat)
    ∧ stopAt ≤ loop_exit_time interval stopAt
    ∧ loop_exit_time interval stopAt < stopAt + interval := by
  have hne : interval ≠ 0 := ne_of_gt hi
  have hnn : (0:ℤ) ≤ ⌈stopAt / interval⌉ :=
    Int.ceil_nonneg (div_nonneg hs (le_of_lt hi))
  have hcast : ((⌈stopAt / interval⌉.toNat : ℕ) : ℚ) = ((⌈stopAt / interval⌉ : ℤ) : ℚ) := by
    exact_mod_cast Int.toNat_of_nonneg hnn
  refine ⟨?_, ?_, ?_⟩
  · unfold loop_exit_time
    rw [stop_check_time_eq, hcast]
  · unfold loop_exit_time
    have h1 : stopAt / interval ≤ ((⌈stopAt / interval⌉ : ℤ) : ℚ) := Int.le_ceil _
    have h2 := mul_le_mul_of_nonneg_right h1 (le_of_lt hi)
    rwa [div_mul_cancel₀ stopAt hne] at h2
  · unfold loop_exit_time
    have h2 : ((⌈stopAt / interval⌉ : ℤ) : ℚ) < stopAt / interval + 1 :=
      Int.ceil_lt_add_one _
    have h3 := mul_lt_mul_of_pos_right h2 hi
    rwa [add_mul, one_mul, div_mul_cancel₀ stopAt hne] at h3

/-- C6 (counterexample).  The claim as stated is false: with a 2s interval
and the stop signal set 0.1s into the sleep, the loop exits at t = 2s — a
latency of 1.9s, far above the one-tick 0.2s the claim allows. -/
theorem stop_mid_sleep_counterexample :
    loop_exit_time 2 (1/10) - 1/10 = 19/10
    ∧ ¬(loop_exit_time 2 (1/10) - 1/10 ≤ 1/5) := by
  have hceil : ⌈(1:ℚ)/10 / 2⌉ = 1 := by
    rw [Int.ceil_eq_iff]
    constructor <;> norm_num
  unfold loop_exit_time
  rw [hceil]
  refine ⟨by norm_num, by norm_num⟩

/-- Concrete instance of `stop_mid_sleep_exit_latency`: interval 2s, stop
set at t = 0.1s. -/
theorem stop_mid_sleep_exit_latency_witness :
    loop_exit_time 2 (1/10)
        = stop_check_time 2 (⌈(1:ℚ)/10 / 2⌉.toNat)
    ∧ (1:ℚ)/10 ≤ loop_exit_time 2 (1/10)
    ∧ loop_exit_time 2 (1/10) < 1/10 + 2 :=
  stop_mid_sleep_exit_latency 2 (1/10) (by norm_num) (by norm_num)
